import Mathlib

/-!
Verification of the SafeMongo scan engine: the rule catalog
(`src/patterns/unsafe-queries.ts`), the line scanner
(`src/utils/scanner.ts`, both the earlier version without a `filePath`
parameter and the later one with the self-exclusion check), and the
severity-to-color mapping.

JavaScript regular expressions from the catalog are embedded as an
explicit abstract syntax tree (`Rx`) together with a backtracking
matcher.  Since `RegExp.prototype.test` only asks for the *existence* of
a match, greedy and lazy quantifiers coincide, so the matcher decides
plain existence; all catalog regexes carry the `i` flag, so literal
characters compare case-insensitively.
-/

/-- Characters that are written via their code point to keep the source
free of brace/backtick/apostrophe literals: `{`. -/
def lbraceCh : Char := Char.ofNat 123

/-- The character `}`. -/
def rbraceCh : Char := Char.ofNat 125

/-- The backtick character. -/
def btickCh : Char := Char.ofNat 96

/-- The single-quote character. -/
def squoteCh : Char := Char.ofNat 39

/-- Case-insensitive character equality, modelling the `i` flag of every
catalog regex. -/
def ciEq (a b : Char) : Bool := a.toLower == b.toLower

/-- The character classes that occur in the catalog's regexes. -/
inductive CharClass where
  | ws             -- \s
  | word           -- \w  and  [a-zA-Z0-9_]
  | dot            -- .   (anything but a line terminator)
  | quoteWord      -- ['"a-zA-Z0-9_]
  | dashUnderscore -- [_-]
  | notNewline     -- [^\n]
  | quote          -- ['"]
  | quoteTick      -- ['"`]
deriving Repr

/-- Membership test of a character in a character class, following the
JavaScript definitions of `\s`, `\w` and `.`. -/
def CharClass.test : CharClass → Char → Bool
  | .ws, c => c == ' ' || c == '\t' || c == '\n' || c == '\r' ||
      c == Char.ofNat 11 || c == Char.ofNat 12
  | .word, c => c.isAlpha || c.isDigit || c == '_'
  | .dot, c => !(c == '\n' || c == '\r' || c == Char.ofNat 0x2028 || c == Char.ofNat 0x2029)
  | .quoteWord, c => c == squoteCh || c == '"' || c.isAlpha || c.isDigit || c == '_'
  | .dashUnderscore, c => c == '_' || c == '-'
  | .notNewline, c => !(c == '\n')
  | .quote, c => c == squoteCh || c == '"'
  | .quoteTick, c => c == squoteCh || c == '"' || c == btickCh

/-- Abstract syntax of the regex fragment used by the catalog: literals,
character classes, concatenation, alternation, Kleene star, negative
lookahead `(?!r)`, fixed-string negative lookbehind `(?<!s)`, and the
word boundary `\b`. -/
inductive Rx where
  | eps
  | ch (c : Char)
  | cls (cc : CharClass)
  | cat (a b : Rx)
  | alt (a b : Rx)
  | star (a : Rx)
  | nla (a : Rx)
  | nlb (s : String)
  | wb
deriving Repr

/-- Case-insensitive prefix test on character lists. -/
def ciIsPrefix : List Char → List Char → Bool
  | [], _ => true
  | _ :: _, [] => false
  | a :: as, b :: bs => ciEq a b && ciIsPrefix as bs

/-- Whether the first character of a list is a word character (used for
the `\b` word-boundary semantics; an absent character counts as
non-word). -/
def headIsWord : List Char → Bool
  | [] => false
  | c :: _ => CharClass.test .word c

/-- Backtracking matcher with continuation, one fuel level.  `bef` is
the reversed list of characters to the left of the current position
(needed for lookbehind and `\b`), `aft` the characters to the right; the
continuation receives the updated pair.  `next` handles the remainder of
a star after one unrolling (it is the matcher at the next-lower fuel
level, so the recursion here is structural on the regex). -/
def rxmGo (next : Rx → List Char → List Char → (List Char → List Char → Bool) → Bool) :
    Rx → List Char → List Char → (List Char → List Char → Bool) → Bool
  | .eps, bef, aft, k => k bef aft
  | .ch c, bef, aft, k =>
      match aft with
      | [] => false
      | a :: rest => ciEq a c && k (a :: bef) rest
  | .cls cc, bef, aft, k =>
      match aft with
      | [] => false
      | a :: rest => CharClass.test cc a && k (a :: bef) rest
  | .cat r₁ r₂, bef, aft, k =>
      rxmGo next r₁ bef aft (fun bef' aft' => rxmGo next r₂ bef' aft' k)
  | .alt r₁ r₂, bef, aft, k =>
      rxmGo next r₁ bef aft k || rxmGo next r₂ bef aft k
  | .nla r, bef, aft, k =>
      !(rxmGo next r bef aft (fun _ _ => true)) && k bef aft
  | .nlb s, bef, aft, k =>
      !(ciIsPrefix s.data.reverse bef) && k bef aft
  | .wb, bef, aft, k =>
      (headIsWord bef != headIsWord aft) && k bef aft
  | .star r, bef, aft, k =>
      k bef aft || rxmGo next r bef aft (fun bef' aft' => next (.star r) bef' aft' k)

/-- Backtracking matcher: the fuel bounds the number of star
unrollings; every star body of the catalog consumes at least one
character, so a fuel linear in the input length is sufficient.  At fuel
0 a star matches only its zero-iterations case. -/
def rxm : Nat → Rx → List Char → List Char → (List Char → List Char → Bool) → Bool
  | 0 => rxmGo fun _ bef aft k => k bef aft
  | fuel + 1 => rxmGo (rxm fuel)

/-- Fuel that is generously larger than the length of the input. -/
def rxFuel (cs : List Char) : Nat := (cs.length + 2) * 16

/-- Existence of a match of `r` starting at some position `≥ start` of
`s`; this is the semantics of `RegExp.prototype.test` (searching every
start position, with the text left of the position visible to
lookbehind). -/
def rxSearchFrom (r : Rx) (s : String) (start : Nat) : Bool :=
  let cs := s.data
  (List.range (cs.length + 1)).any fun p =>
    decide (start ≤ p) && rxm (rxFuel cs) r ((cs.take p).reverse) (cs.drop p) (fun _ _ => true)

/-- Model of a JavaScript `RegExp` object: its `global`/`sticky` flag
(which makes `test` stateful through `lastIndex`) and its `test`
behaviour as a function of the current `lastIndex`.  The second
component of `testFrom` is the updated `lastIndex` that a *global*
regex would store; no catalog regex is global, so that component is
never consulted by the scanner's behaviour on the catalog. -/
structure JSRegExp where
  global : Bool
  testFrom : String → Nat → Bool × Nat

/-- The `RegExp` value of a catalog entry: an `i`-flagged, non-global
regex given by its syntax tree. -/
def JSRegExp.ofRx (r : Rx) : JSRegExp :=
  { global := false
    testFrom := fun s i => (rxSearchFrom r s i, 0) }

/-- JavaScript `regex.test(line)` semantics: a global regex searches
from `lastIndex` and updates it; a non-global regex searches from the
beginning and leaves `lastIndex` untouched. -/
def JSRegExp.testJS (r : JSRegExp) (s : String) (lastIndex : Nat) : Bool × Nat :=
  if r.global then r.testFrom s lastIndex
  else ((r.testFrom s 0).1, lastIndex)

/-- Embedding of the `UnsafePattern` record of `src/types.ts`, restricted
to the fields that the scan engine and the verified claims consult
(`description`, `suggestion`, `example`, `safeExample` and `docUrl` are
display-only strings that no code under verification ever reads). -/
structure UnsafePattern where
  id : String
  name : String
  pattern : JSRegExp
  severity : String

/-- Embedding of the `Detection` record of `src/types.ts`. -/
structure Detection where
  pattern : UnsafePattern
  lineNumber : Nat
  matchedText : String

/-- The test a (stateless view of a) pattern performs on one line:
`pattern.pattern.test(line)` for a regex whose `lastIndex` is 0 — which
is the invariable situation for non-global regexes. -/
def UnsafePattern.testLine (p : UnsafePattern) (line : String) : Bool :=
  (p.pattern.testFrom line 0).1

/-- Split a character list at every newline character, JavaScript
`content.split("\n")` semantics: the empty input gives one empty
chunk, and `n` newline characters give `n + 1` chunks. -/
def splitLinesCh : List Char → List (List Char)
  | [] => [[]]
  | c :: cs =>
      match splitLinesCh cs with
      | [] => [[]]
      | l :: ls => if c == '\n' then [] :: l :: ls else (c :: l) :: ls

/-- JavaScript `content.split("\n")`. -/
def jsSplitNewline (s : String) : List String := (splitLinesCh s.data).map String.mk

/-- Whether a character is trimmed by JavaScript `String.prototype.trim`
(the ASCII whitespace characters; the scanned inputs contain no exotic
Unicode space). -/
def isJsSpace (c : Char) : Bool := CharClass.test .ws c

/-- JavaScript `line.trim()`: remove leading and trailing whitespace. -/
def jsTrim (s : String) : String :=
  String.mk (((s.data.dropWhile isJsSpace).reverse.dropWhile isJsSpace).reverse)

/-- JavaScript `String.prototype.includes`: substring containment. -/
def jsIncludes (s sub : String) : Bool :=
  (List.range (s.data.length + 1)).any fun i => List.isPrefixOf sub.data (s.data.drop i)

/-- JavaScript `String.prototype.endsWith` (used only to state the
claims' "ends with" convention, which the code does not implement). -/
def endsWithStr (s suffixStr : String) : Bool := List.isSuffixOf suffixStr.data s.data

/-- The inner `patterns.forEach` loop of `scanForUnsafePatterns`: test
every pattern against one line, pushing a detection (with 1-based line
number and trimmed line) for each match, in catalog order. -/
def scanLine (line : String) (lineNumber : Nat) : List UnsafePattern → List Detection
  | [] => []
  | p :: ps =>
      if p.testLine line then
        { pattern := p, lineNumber := lineNumber, matchedText := jsTrim line } ::
          scanLine line lineNumber ps
      else scanLine line lineNumber ps

/-- The outer `lines.forEach` loop: `idx` counts the lines already
consumed, so the head line gets `lineNumber = idx + 1`. -/
def scanLines : List String → Nat → List UnsafePattern → List Detection
  | [], _, _ => []
  | l :: ls, idx, ps => scanLine l (idx + 1) ps ++ scanLines ls (idx + 1) ps

/-- The later version of `scanForUnsafePatterns` (scanner.ts with the
optional `filePath` parameter): if `filePath` is provided and contains
`unsafe-queries.ts` or `unsafe-queries.js` as a substring
(`String.prototype.includes`), return `[]`; otherwise split the content
at newlines and run the nested scanning loops. -/
def scanForUnsafePatterns (content : String) (patterns : List UnsafePattern)
    (filePath : Option String := none) : List Detection :=
  if (filePath.map fun fp =>
        jsIncludes fp "unsafe-queries.ts" || jsIncludes fp "unsafe-queries.js").getD false
  then []
  else scanLines (jsSplitNewline content) 0 patterns

/-- The inner loop of the earlier version of `scanForUnsafePatterns`
(the copy of scanner.ts without a `filePath` parameter). -/
def scanLineV1 (line : String) (lineNumber : Nat) : List UnsafePattern → List Detection
  | [] => []
  | p :: ps =>
      if p.testLine line then
        { pattern := p, lineNumber := lineNumber, matchedText := jsTrim line } ::
          scanLineV1 line lineNumber ps
      else scanLineV1 line lineNumber ps

/-- The outer loop of the earlier version. -/
def scanLinesV1 : List String → Nat → List UnsafePattern → List Detection
  | [], _, _ => []
  | l :: ls, idx, ps => scanLineV1 l (idx + 1) ps ++ scanLinesV1 ls (idx + 1) ps

/-- The earlier version of `scanForUnsafePatterns`: no `filePath`
parameter and no self-exclusion check. -/
def scanForUnsafePatternsV1 (content : String) (patterns : List UnsafePattern) :
    List Detection :=
  scanLinesV1 (jsSplitNewline content) 0 patterns

/-- Provides a color code based on severity (`getSeverityColor` of
scanner.ts; the JavaScript `switch` is an equality chain). -/
def getSeverityColor (severity : String) : String :=
  if severity = "high" then "#FF4D4F"
  else if severity = "medium" then "#FAAD14"
  else if severity = "low" then "#52C41A"
  else "#1890FF"

/-- Concatenation of a literal string, character by character. -/
def Rx.str (s : String) : Rx := (s.data.map Rx.ch).foldr Rx.cat Rx.eps

/-- Concatenation of a list of regexes. -/
def Rx.seq (rs : List Rx) : Rx := rs.foldr Rx.cat Rx.eps

/-- Alternation of a non-empty list of regexes (the empty case never
occurs in the catalog and is given a never-matching regex). -/
def Rx.alts : List Rx → Rx
  | [] => Rx.nla Rx.eps
  | [r] => r
  | r :: rs => Rx.alt r (Rx.alts rs)

/-- The `r?` quantifier. -/
def Rx.opt (r : Rx) : Rx := Rx.alt r Rx.eps

/-- The `r+` quantifier. -/
def Rx.plus (r : Rx) : Rx := Rx.cat r (Rx.star r)

/-- The bounded quantifier `r{lo,hi}`, expanded into `lo` copies of `r`
followed by `hi - lo` optional copies. -/
def Rx.repRange (lo hi : Nat) (r : Rx) : Rx :=
  Rx.seq (List.replicate lo r ++ List.replicate (hi - lo) (Rx.opt r))

/-- Shorthand for `\s*`. -/
def ws0 : Rx := Rx.star (Rx.cls .ws)

/-- Shorthand for `\s+`. -/
def ws1 : Rx := Rx.plus (Rx.cls .ws)

/-- Shorthand for `\w+` (also `[a-zA-Z0-9_]+`). -/
def w1 : Rx := Rx.plus (Rx.cls .word)

/-- Shorthand for `['"a-zA-Z0-9_]+`. -/
def qw1 : Rx := Rx.plus (Rx.cls .quoteWord)

/-- Shorthand for `.*` (also `.*?`: lazy and greedy repetition coincide
under existence-of-a-match semantics). -/
def anyStar : Rx := Rx.star (Rx.cls .dot)

/-- Catalog entry `FUNCTION_PARAMETER_INJECTION`:
`/\.(find|findOne|aggregate|update|delete)\s*\(\s*\{\s*[a-zA-Z0-9_]+\s*:\s*(\w+)(?!\()/i`. -/
def FUNCTION_PARAMETER_INJECTION : UnsafePattern :=
  { id := "FUNCTION_PARAMETER_INJECTION"
    name := "Function Parameter Injection"
    pattern := JSRegExp.ofRx (Rx.seq [Rx.ch '.',
      Rx.alts [Rx.str "find", Rx.str "findOne", Rx.str "aggregate", Rx.str "update",
        Rx.str "delete"],
      ws0, Rx.ch '(', ws0, Rx.ch lbraceCh, ws0, w1, ws0, Rx.ch ':', ws0, w1,
      Rx.nla (Rx.ch '(')])
    severity := "high" }

/-- Catalog entry `TEMPLATE_STRING_INJECTION`:
`/db\.[a-zA-Z0-9_]+\.(find|findOne|aggregate|update|delete)\s*\(\s*`.*?${.*?}.*?`/i`
(backticks and braces of the template literal written out as
characters). -/
def TEMPLATE_STRING_INJECTION : UnsafePattern :=
  { id := "TEMPLATE_STRING_INJECTION"
    name := "Template String Injection"
    pattern := JSRegExp.ofRx (Rx.seq [Rx.str "db.", w1, Rx.ch '.',
      Rx.alts [Rx.str "find", Rx.str "findOne", Rx.str "aggregate", Rx.str "update",
        Rx.str "delete"],
      ws0, Rx.ch '(', ws0, Rx.ch btickCh, anyStar, Rx.ch '$', Rx.ch lbraceCh, anyStar,
      Rx.ch rbraceCh, anyStar, Rx.ch btickCh])
    severity := "high" }

/-- Catalog entry `ARRAY_FILTER_INJECTION`: `/\$\[\s*\w+\s*\]/i`. -/
def ARRAY_FILTER_INJECTION : UnsafePattern :=
  { id := "ARRAY_FILTER_INJECTION"
    name := "Array Filter Injection"
    pattern := JSRegExp.ofRx (Rx.seq [Rx.ch '$', Rx.ch '[', ws0, w1, ws0, Rx.ch ']'])
    severity := "medium" }

/-- Catalog entry `DIRECT_QUERY_VARIABLE_ASSIGNMENT`:
`/const\s+query\s*=\s*req\.(body|params|query)/i`. -/
def DIRECT_QUERY_VARIABLE_ASSIGNMENT : UnsafePattern :=
  { id := "DIRECT_QUERY_VARIABLE_ASSIGNMENT"
    name := "Direct Query Variable Assignment"
    pattern := JSRegExp.ofRx (Rx.seq [Rx.str "const", ws1, Rx.str "query", ws0, Rx.ch '=',
      ws0, Rx.str "req.", Rx.alts [Rx.str "body", Rx.str "params", Rx.str "query"]])
    severity := "high" }

/-- Catalog entry `BULK_OPERATION_INJECTION`:
`/\.bulkWrite\s*\(\s*(\w+)(?!\()/i`. -/
def BULK_OPERATION_INJECTION : UnsafePattern :=
  { id := "BULK_OPERATION_INJECTION"
    name := "Bulk Operation Injection"
    pattern := JSRegExp.ofRx (Rx.seq [Rx.str ".bulkWrite", ws0, Rx.ch '(', ws0, w1,
      Rx.nla (Rx.ch '(')])
    severity := "high" }

/-- Catalog entry `EVAL_USAGE`: `/db\.eval\s*\(/i`. -/
def EVAL_USAGE : UnsafePattern :=
  { id := "EVAL_USAGE"
    name := "Eval Usage"
    pattern := JSRegExp.ofRx (Rx.seq [Rx.str "db.eval", ws0, Rx.ch '('])
    severity := "high" }

/-- Catalog entry `INSECURE_AUTH_CHECKS`:
`/\.(find|findOne)\s*\(\s*\{\s*.*?password.*?\}\s*\)/i`. -/
def INSECURE_AUTH_CHECKS : UnsafePattern :=
  { id := "INSECURE_AUTH_CHECKS"
    name := "Insecure Authentication Checks"
    pattern := JSRegExp.ofRx (Rx.seq [Rx.ch '.', Rx.alts [Rx.str "find", Rx.str "findOne"],
      ws0, Rx.ch '(', ws0, Rx.ch lbraceCh, ws0, anyStar, Rx.str "password", anyStar,
      Rx.ch rbraceCh, ws0, Rx.ch ')'])
    severity := "high" }

/-- Catalog entry `WEAK_INDEXING`:
`/createIndex\s*\(\s*\{\s*.*?\s*\}\s*,\s*\{\s*(?!.*?unique).*?\}\s*\)/i`. -/
def WEAK_INDEXING : UnsafePattern :=
  { id := "WEAK_INDEXING"
    name := "Weak Indexing"
    pattern := JSRegExp.ofRx (Rx.seq [Rx.str "createIndex", ws0, Rx.ch '(', ws0,
      Rx.ch lbraceCh, ws0, anyStar, ws0, Rx.ch rbraceCh, ws0, Rx.ch ',', ws0,
      Rx.ch lbraceCh, ws0, Rx.nla (Rx.seq [anyStar, Rx.str "unique"]), anyStar,
      Rx.ch rbraceCh, ws0, Rx.ch ')'])
    severity := "medium" }

/-- Catalog entry `DIRECT_JSON_PARSE`:
`/JSON\.parse\s*\(.*?\)\s*.*?(\.find|\.findOne|\.update|\.delete)/i`. -/
def DIRECT_JSON_PARSE : UnsafePattern :=
  { id := "DIRECT_JSON_PARSE"
    name := "Direct JSON Parse to Query"
    pattern := JSRegExp.ofRx (Rx.seq [Rx.str "JSON.parse", ws0, Rx.ch '(', anyStar,
      Rx.ch ')', ws0, anyStar,
      Rx.alts [Rx.str ".find", Rx.str ".findOne", Rx.str ".update", Rx.str ".delete"]])
    severity := "high" }

/-- Catalog entry `TRANSACTION_WITHOUT_ERROR_HANDLING`:
`/startSession\s*\(\s*\).*?withTransaction.*?(?!\s*catch\s*\()/i`. -/
def TRANSACTION_WITHOUT_ERROR_HANDLING : UnsafePattern :=
  { id := "TRANSACTION_WITHOUT_ERROR_HANDLING"
    name := "Transaction Without Error Handling"
    pattern := JSRegExp.ofRx (Rx.seq [Rx.str "startSession", ws0, Rx.ch '(', ws0,
      Rx.ch ')', anyStar, Rx.str "withTransaction", anyStar,
      Rx.nla (Rx.seq [ws0, Rx.str "catch", ws0, Rx.ch '('])])
    severity := "medium" }

/-- Catalog entry `NOSQL_INJECTION_OBJECT`: `/\{\s*(\$where|\$expr)\s*:/i`. -/
def NOSQL_INJECTION_OBJECT : UnsafePattern :=
  { id := "NOSQL_INJECTION_OBJECT"
    name := "NoSQL Injection (Object)"
    pattern := JSRegExp.ofRx (Rx.seq [Rx.ch lbraceCh, ws0,
      Rx.alts [Rx.str "$where", Rx.str "$expr"], ws0, Rx.ch ':'])
    severity := "high" }

/-- Catalog entry `NOSQL_INJECTION_REGEX`:
`/\{\s*['"a-zA-Z0-9_]+\s*:\s*new\s+RegExp\s*\(\s*.*?\s*\)/i`. -/
def NOSQL_INJECTION_REGEX : UnsafePattern :=
  { id := "NOSQL_INJECTION_REGEX"
    name := "NoSQL Injection (Regex)"
    pattern := JSRegExp.ofRx (Rx.seq [Rx.ch lbraceCh, ws0, qw1, ws0, Rx.ch ':', ws0,
      Rx.str "new", ws1, Rx.str "RegExp", ws0, Rx.ch '(', ws0, anyStar, ws0, Rx.ch ')'])
    severity := "high" }

/-- Catalog entry `NOSQL_INJECTION_STRING`:
`/db\.[a-zA-Z0-9_]+\.(find|findOne|aggregate|update|delete)\s*\(\s*['"`]\s*\{\s*.*?\$.*?\}\s*['"`]\s*\+/i`. -/
def NOSQL_INJECTION_STRING : UnsafePattern :=
  { id := "NOSQL_INJECTION_STRING"
    name := "NoSQL Injection (String Concatenation)"
    pattern := JSRegExp.ofRx (Rx.seq [Rx.str "db.", w1, Rx.ch '.',
      Rx.alts [Rx.str "find", Rx.str "findOne", Rx.str "aggregate", Rx.str "update",
        Rx.str "delete"],
      ws0, Rx.ch '(', ws0, Rx.cls .quoteTick, ws0, Rx.ch lbraceCh, ws0, anyStar,
      Rx.ch '$', anyStar, Rx.ch rbraceCh, ws0, Rx.cls .quoteTick, ws0, Rx.ch '+'])
    severity := "high" }

/-- Catalog entry `UNVALIDATED_USER_INPUT`:
`/\{\s*['"a-zA-Z0-9_]+\s*:\s*req\.body\.|req\.params\.|req\.query\./i` —
note that the alternation is top-level: the regex matches `req.params.`
or `req.query.` anywhere, or the object-literal form with `req.body.`. -/
def UNVALIDATED_USER_INPUT : UnsafePattern :=
  { id := "UNVALIDATED_USER_INPUT"
    name := "Unvalidated User Input in Query"
    pattern := JSRegExp.ofRx (Rx.alts [
      Rx.seq [Rx.ch lbraceCh, ws0, qw1, ws0, Rx.ch ':', ws0, Rx.str "req.body."],
      Rx.str "req.params.", Rx.str "req.query."])
    severity := "high" }

/-- Catalog entry `INSECURE_PROJECTION`:
`/\.(find|findOne)\s*\(\s*.*?\s*,\s*\{\s*(['"a-zA-Z0-9_]+\s*:\s*0|['"a-zA-Z0-9_]+\s*:\s*false)\s*\}/i`. -/
def INSECURE_PROJECTION : UnsafePattern :=
  { id := "INSECURE_PROJECTION"
    name := "Insecure Projection"
    pattern := JSRegExp.ofRx (Rx.seq [Rx.ch '.', Rx.alts [Rx.str "find", Rx.str "findOne"],
      ws0, Rx.ch '(', ws0, anyStar, ws0, Rx.ch ',', ws0, Rx.ch lbraceCh, ws0,
      Rx.alts [Rx.seq [qw1, ws0, Rx.ch ':', ws0, Rx.ch '0'],
        Rx.seq [qw1, ws0, Rx.ch ':', ws0, Rx.str "false"]],
      ws0, Rx.ch rbraceCh])
    severity := "medium" }

/-- Catalog entry `INSECURE_AGGREGATION`:
`/\.aggregate\s*\(\s*\[\s*\{\s*\$project\s*:\s*\{.*?(\$literal|\$eval|\$function).*?\}\s*\}/i`. -/
def INSECURE_AGGREGATION : UnsafePattern :=
  { id := "INSECURE_AGGREGATION"
    name := "Insecure Aggregation Pipeline"
    pattern := JSRegExp.ofRx (Rx.seq [Rx.str ".aggregate", ws0, Rx.ch '(', ws0, Rx.ch '[',
      ws0, Rx.ch lbraceCh, ws0, Rx.str "$project", ws0, Rx.ch ':', ws0, Rx.ch lbraceCh,
      anyStar, Rx.alts [Rx.str "$literal", Rx.str "$eval", Rx.str "$function"], anyStar,
      Rx.ch rbraceCh, ws0, Rx.ch rbraceCh])
    severity := "high" }

/-- Catalog entry `UNCONSTRAINED_QUERY`:
`/\.(find|findOne|update|delete)\s*\(\s*\{\s*\}\s*\)/i`. -/
def UNCONSTRAINED_QUERY : UnsafePattern :=
  { id := "UNCONSTRAINED_QUERY"
    name := "Unconstrained Query"
    pattern := JSRegExp.ofRx (Rx.seq [Rx.ch '.',
      Rx.alts [Rx.str "find", Rx.str "findOne", Rx.str "update", Rx.str "delete"],
      ws0, Rx.ch '(', ws0, Rx.ch lbraceCh, ws0, Rx.ch rbraceCh, ws0, Rx.ch ')'])
    severity := "medium" }

/-- Catalog entry `MASS_ASSIGNMENT`:
`/\.(insertOne|insertMany|updateOne|updateMany|findOneAndUpdate)\s*\(\s*.*?,\s*\{\s*\$set\s*:\s*req\.body\s*\}/i`. -/
def MASS_ASSIGNMENT : UnsafePattern :=
  { id := "MASS_ASSIGNMENT"
    name := "Mass Assignment Vulnerability"
    pattern := JSRegExp.ofRx (Rx.seq [Rx.ch '.',
      Rx.alts [Rx.str "insertOne", Rx.str "insertMany", Rx.str "updateOne",
        Rx.str "updateMany", Rx.str "findOneAndUpdate"],
      ws0, Rx.ch '(', ws0, anyStar, Rx.ch ',', ws0, Rx.ch lbraceCh, ws0, Rx.str "$set",
      ws0, Rx.ch ':', ws0, Rx.str "req.body", ws0, Rx.ch rbraceCh])
    severity := "high" }

/-- Catalog entry `INSECURE_INDEXING`:
`/createIndex\s*\(\s*\{\s*.*?:\s*['"]text['"]\s*\}/i`. -/
def INSECURE_INDEXING : UnsafePattern :=
  { id := "INSECURE_INDEXING"
    name := "Insecure Text Indexing"
    pattern := JSRegExp.ofRx (Rx.seq [Rx.str "createIndex", ws0, Rx.ch '(', ws0,
      Rx.ch lbraceCh, ws0, anyStar, Rx.ch ':', ws0, Rx.cls .quote, Rx.str "text",
      Rx.cls .quote, ws0, Rx.ch rbraceCh])
    severity := "medium" }

/-- Catalog entry `UNAUTHORIZED_SCHEMA_MODIFICATION`:
`/\.(createCollection|dropCollection|createIndex|dropIndex)\s*\(/i`. -/
def UNAUTHORIZED_SCHEMA_MODIFICATION : UnsafePattern :=
  { id := "UNAUTHORIZED_SCHEMA_MODIFICATION"
    name := "Unauthorized Schema Modification"
    pattern := JSRegExp.ofRx (Rx.seq [Rx.ch '.',
      Rx.alts [Rx.str "createCollection", Rx.str "dropCollection", Rx.str "createIndex",
        Rx.str "dropIndex"],
      ws0, Rx.ch '('])
    severity := "medium" }

/-- Catalog entry `INSECURE_OPERATOR_USAGE`:
`/\{\s*\$ne\s*:|"\$ne"\s*:|'\$ne'\s*:/i` — again a top-level
alternation of three forms. -/
def INSECURE_OPERATOR_USAGE : UnsafePattern :=
  { id := "INSECURE_OPERATOR_USAGE"
    name := "Insecure Operator Usage"
    pattern := JSRegExp.ofRx (Rx.alts [
      Rx.seq [Rx.ch lbraceCh, ws0, Rx.str "$ne", ws0, Rx.ch ':'],
      Rx.seq [Rx.ch '"', Rx.str "$ne", Rx.ch '"', ws0, Rx.ch ':'],
      Rx.seq [Rx.ch squoteCh, Rx.str "$ne", Rx.ch squoteCh, ws0, Rx.ch ':']])
    severity := "high" }

/-- Catalog entry `UNVALIDATED_ID`:
`/(?<!isValid\()new\s+ObjectId\s*\(\s*.*?req\.(body|params|query)/i`. -/
def UNVALIDATED_ID : UnsafePattern :=
  { id := "UNVALIDATED_ID"
    name := "Unvalidated MongoDB ObjectId"
    pattern := JSRegExp.ofRx (Rx.seq [Rx.nlb "isValid(", Rx.str "new", ws1,
      Rx.str "ObjectId", ws0, Rx.ch '(', ws0, anyStar, Rx.str "req.",
      Rx.alts [Rx.str "body", Rx.str "params", Rx.str "query"]])
    severity := "medium" }

/-- Catalog entry `PROJECTION_INJECTION`:
`/\.(find|findOne)\s*\(\s*.*?\s*,\s*req\.(body|params|query)/i`. -/
def PROJECTION_INJECTION : UnsafePattern :=
  { id := "PROJECTION_INJECTION"
    name := "Projection Injection"
    pattern := JSRegExp.ofRx (Rx.seq [Rx.ch '.', Rx.alts [Rx.str "find", Rx.str "findOne"],
      ws0, Rx.ch '(', ws0, anyStar, ws0, Rx.ch ',', ws0, Rx.str "req.",
      Rx.alts [Rx.str "body", Rx.str "params", Rx.str "query"]])
    severity := "high" }

/-- Catalog entry `UNCONTROLLED_LIMIT`:
`/\.limit\s*\(\s*req\.(body|params|query)/i`. -/
def UNCONTROLLED_LIMIT : UnsafePattern :=
  { id := "UNCONTROLLED_LIMIT"
    name := "Uncontrolled Query Limit"
    pattern := JSRegExp.ofRx (Rx.seq [Rx.str ".limit", ws0, Rx.ch '(', ws0, Rx.str "req.",
      Rx.alts [Rx.str "body", Rx.str "params", Rx.str "query"]])
    severity := "medium" }

/-- Catalog entry `SORT_INJECTION`:
`/\.sort\s*\(\s*req\.(body|params|query)/i`. -/
def SORT_INJECTION : UnsafePattern :=
  { id := "SORT_INJECTION"
    name := "Sort Injection"
    pattern := JSRegExp.ofRx (Rx.seq [Rx.str ".sort", ws0, Rx.ch '(', ws0, Rx.str "req.",
      Rx.alts [Rx.str "body", Rx.str "params", Rx.str "query"]])
    severity := "medium" }

/-- Catalog entry `OBJECT_SPREAD_INJECTION`:
`/\.(find|findOne|aggregate|update|delete)\s*\(\s*\{\s*.*?,?\s*\.\.\.(\w+).*?\}/i`. -/
def OBJECT_SPREAD_INJECTION : UnsafePattern :=
  { id := "OBJECT_SPREAD_INJECTION"
    name := "Object Spread Injection"
    pattern := JSRegExp.ofRx (Rx.seq [Rx.ch '.',
      Rx.alts [Rx.str "find", Rx.str "findOne", Rx.str "aggregate", Rx.str "update",
        Rx.str "delete"],
      ws0, Rx.ch '(', ws0, Rx.ch lbraceCh, ws0, anyStar, Rx.opt (Rx.ch ','), ws0,
      Rx.str "...", w1, anyStar, Rx.ch rbraceCh])
    severity := "high" }

/-- Catalog entry `DYNAMIC_OPERATOR_ASSIGNMENT`: `/\w+\s*=\s*\{\s*\$\w+:/i`. -/
def DYNAMIC_OPERATOR_ASSIGNMENT : UnsafePattern :=
  { id := "DYNAMIC_OPERATOR_ASSIGNMENT"
    name := "Dynamic Operator Assignment"
    pattern := JSRegExp.ofRx (Rx.seq [w1, ws0, Rx.ch '=', ws0, Rx.ch lbraceCh, ws0,
      Rx.ch '$', w1, Rx.ch ':'])
    severity := "medium" }

/-- Catalog entry `MONGOOSE_QUERY_EXEC_MISSING`:
`/\.(find|findOne|findById|update|delete|count)(?!\s*\(\s*\)|\s*\(\s*.*?\s*\)\s*\.(exec|then|catch)\b)/i`. -/
def MONGOOSE_QUERY_EXEC_MISSING : UnsafePattern :=
  { id := "MONGOOSE_QUERY_EXEC_MISSING"
    name := "Mongoose Query Exec Missing"
    pattern := JSRegExp.ofRx (Rx.seq [Rx.ch '.',
      Rx.alts [Rx.str "find", Rx.str "findOne", Rx.str "findById", Rx.str "update",
        Rx.str "delete", Rx.str "count"],
      Rx.nla (Rx.alts [
        Rx.seq [ws0, Rx.ch '(', ws0, Rx.ch ')'],
        Rx.seq [ws0, Rx.ch '(', ws0, anyStar, ws0, Rx.ch ')', ws0, Rx.ch '.',
          Rx.alts [Rx.str "exec", Rx.str "then", Rx.str "catch"], Rx.wb]])])
    severity := "low" }

/-- Catalog entry `UNHANDLED_PROMISE_REJECTION`:
`/await\s+(\w+\.)*(find|findOne|findById|update|delete|aggregate|count).*?(?!\s*try\s*\{)/i`. -/
def UNHANDLED_PROMISE_REJECTION : UnsafePattern :=
  { id := "UNHANDLED_PROMISE_REJECTION"
    name := "Unhandled Promise Rejection"
    pattern := JSRegExp.ofRx (Rx.seq [Rx.str "await", ws1,
      Rx.star (Rx.seq [w1, Rx.ch '.']),
      Rx.alts [Rx.str "find", Rx.str "findOne", Rx.str "findById", Rx.str "update",
        Rx.str "delete", Rx.str "aggregate", Rx.str "count"],
      anyStar, Rx.nla (Rx.seq [ws0, Rx.str "try", ws0, Rx.ch lbraceCh])])
    severity := "medium" }

/-- Catalog entry `UNESCAPED_REGEX_INPUT`:
`/\{\s*['"a-zA-Z0-9_]+\s*:\s*\{\s*\$regex\s*:\s*(\w+)(?!\()/i`. -/
def UNESCAPED_REGEX_INPUT : UnsafePattern :=
  { id := "UNESCAPED_REGEX_INPUT"
    name := "Unescaped Regex Input"
    pattern := JSRegExp.ofRx (Rx.seq [Rx.ch lbraceCh, ws0, qw1, ws0, Rx.ch ':', ws0,
      Rx.ch lbraceCh, ws0, Rx.str "$regex", ws0, Rx.ch ':', ws0, w1,
      Rx.nla (Rx.ch '(')])
    severity := "high" }

/-- Catalog entry `SENSITIVE_FIELD_EXPOSURE`:
`/\.\s*find.*\{\s*\}\s*(?!.*\{\s*password\s*:\s*0|\s*passwordHash\s*:\s*0)/i`. -/
def SENSITIVE_FIELD_EXPOSURE : UnsafePattern :=
  { id := "SENSITIVE_FIELD_EXPOSURE"
    name := "Sensitive Field Exposure"
    pattern := JSRegExp.ofRx (Rx.seq [Rx.ch '.', ws0, Rx.str "find", anyStar,
      Rx.ch lbraceCh, ws0, Rx.ch rbraceCh, ws0,
      Rx.nla (Rx.alts [
        Rx.seq [anyStar, Rx.ch lbraceCh, ws0, Rx.str "password", ws0, Rx.ch ':', ws0,
          Rx.ch '0'],
        Rx.seq [ws0, Rx.str "passwordHash", ws0, Rx.ch ':', ws0, Rx.ch '0']])])
    severity := "high" }

/-- Catalog entry `UNCONTROLLED_SKIP`:
`/\.skip\s*\(\s*req\.(body|params|query)/i`. -/
def UNCONTROLLED_SKIP : UnsafePattern :=
  { id := "UNCONTROLLED_SKIP"
    name := "Uncontrolled Skip Value"
    pattern := JSRegExp.ofRx (Rx.seq [Rx.str ".skip", ws0, Rx.ch '(', ws0, Rx.str "req.",
      Rx.alts [Rx.str "body", Rx.str "params", Rx.str "query"]])
    severity := "medium" }

/-- Catalog entry `SECRETS_IN_QUERY`:
`/(api[_-]?key|secret|password|token|auth[_-]?token|credential)[^\n]{1,30}(=|:)[^\n]{1,30}/i`. -/
def SECRETS_IN_QUERY : UnsafePattern :=
  { id := "SECRETS_IN_QUERY"
    name := "Secrets in Query"
    pattern := JSRegExp.ofRx (Rx.seq [
      Rx.alts [Rx.seq [Rx.str "api", Rx.opt (Rx.cls .dashUnderscore), Rx.str "key"],
        Rx.str "secret", Rx.str "password", Rx.str "token",
        Rx.seq [Rx.str "auth", Rx.opt (Rx.cls .dashUnderscore), Rx.str "token"],
        Rx.str "credential"],
      Rx.repRange 1 30 (Rx.cls .notNewline),
      Rx.alts [Rx.ch '=', Rx.ch ':'],
      Rx.repRange 1 30 (Rx.cls .notNewline)])
    severity := "high" }

/-- Catalog entry `DANGEROUS_PROJECTION`: `/\$\s*:\s*(\{|\[|\$)/i`. -/
def DANGEROUS_PROJECTION : UnsafePattern :=
  { id := "DANGEROUS_PROJECTION"
    name := "Dangerous Projection Operators"
    pattern := JSRegExp.ofRx (Rx.seq [Rx.ch '$', ws0, Rx.ch ':', ws0,
      Rx.alts [Rx.ch lbraceCh, Rx.ch '[', Rx.ch '$']])
    severity := "high" }

/-- Catalog entry `UNVALIDATED_UPDATE_OPERATORS`:
`/\.\s*(update|updateOne|updateMany|findOneAndUpdate)\s*\(\s*.*?,\s*\{\s*\$\w+\s*:/i`. -/
def UNVALIDATED_UPDATE_OPERATORS : UnsafePattern :=
  { id := "UNVALIDATED_UPDATE_OPERATORS"
    name := "Unvalidated Update Operators"
    pattern := JSRegExp.ofRx (Rx.seq [Rx.ch '.', ws0,
      Rx.alts [Rx.str "update", Rx.str "updateOne", Rx.str "updateMany",
        Rx.str "findOneAndUpdate"],
      ws0, Rx.ch '(', ws0, anyStar, Rx.ch ',', ws0, Rx.ch lbraceCh, ws0, Rx.ch '$', w1,
      ws0, Rx.ch ':'])
    severity := "high" }

/-- The module-level catalog `unsafePatterns` of
`src/patterns/unsafe-queries.ts`, in its source order. -/
def unsafePatterns : List UnsafePattern :=
  [FUNCTION_PARAMETER_INJECTION, TEMPLATE_STRING_INJECTION, ARRAY_FILTER_INJECTION,
   DIRECT_QUERY_VARIABLE_ASSIGNMENT, BULK_OPERATION_INJECTION, EVAL_USAGE,
   INSECURE_AUTH_CHECKS, WEAK_INDEXING, DIRECT_JSON_PARSE,
   TRANSACTION_WITHOUT_ERROR_HANDLING, NOSQL_INJECTION_OBJECT, NOSQL_INJECTION_REGEX,
   NOSQL_INJECTION_STRING, UNVALIDATED_USER_INPUT, INSECURE_PROJECTION,
   INSECURE_AGGREGATION, UNCONSTRAINED_QUERY, MASS_ASSIGNMENT, INSECURE_INDEXING,
   UNAUTHORIZED_SCHEMA_MODIFICATION, INSECURE_OPERATOR_USAGE, UNVALIDATED_ID,
   PROJECTION_INJECTION, UNCONTROLLED_LIMIT, SORT_INJECTION, OBJECT_SPREAD_INJECTION,
   DYNAMIC_OPERATOR_ASSIGNMENT, MONGOOSE_QUERY_EXEC_MISSING, UNHANDLED_PROMISE_REJECTION,
   UNESCAPED_REGEX_INPUT, SENSITIVE_FIELD_EXPOSURE, UNCONTROLLED_SKIP, SECRETS_IN_QUERY,
   DANGEROUS_PROJECTION, UNVALIDATED_UPDATE_OPERATORS]

/-- Index-annotated variant of the inner scanning loop: each emitted
detection is tagged with its line number and the catalog index `j` of
the matching pattern (used to state the output-ordering claim). -/
def scanLineIdx (line : String) (lineNumber : Nat) :
    List UnsafePattern → Nat → List (Nat × Nat × Detection)
  | [], _ => []
  | p :: ps, j =>
      if p.testLine line then
        (lineNumber, j,
          { pattern := p, lineNumber := lineNumber, matchedText := jsTrim line }) ::
          scanLineIdx line lineNumber ps (j + 1)
      else scanLineIdx line lineNumber ps (j + 1)

/-- Index-annotated variant of the outer scanning loop. -/
def scanLinesIdx (patterns : List UnsafePattern) :
    List String → Nat → List (Nat × Nat × Detection)
  | [], _ => []
  | l :: ls, idx => scanLineIdx l (idx + 1) patterns 0 ++ scanLinesIdx patterns ls (idx + 1)

/-- The index-annotated scan: same traversal as `scanForUnsafePatterns`
without a `filePath`, remembering for every emitted Finding its line
number and the catalog position of its rule. -/
def scanIndexed (content : String) (patterns : List UnsafePattern) :
    List (Nat × Nat × Detection) :=
  scanLinesIdx patterns (jsSplitNewline content) 0

/-- Stateful variant of the inner loop: each pattern is paired with the
current `lastIndex` of its `RegExp` object and `test` is the stateful
JavaScript `testJS`; the updated `lastIndex` list is returned. -/
def scanLineS (line : String) (lineNumber : Nat) :
    List (UnsafePattern × Nat) → List Detection × List Nat
  | [] => ([], [])
  | (p, li) :: ps =>
      let r := p.pattern.testJS line li
      let rest := scanLineS line lineNumber ps
      (if r.1 then
        { pattern := p, lineNumber := lineNumber, matchedText := jsTrim line } :: rest.1
       else rest.1,
       r.2 :: rest.2)

/-- Stateful variant of the outer loop, threading the `lastIndex` state
of every pattern from line to line. -/
def scanLinesS : List String → Nat → List UnsafePattern → List Nat →
    List Detection × List Nat
  | [], _, _, st => ([], st)
  | l :: ls, idx, ps, st =>
      let a := scanLineS l (idx + 1) (ps.zip st)
      let b := scanLinesS ls (idx + 1) ps a.2
      (a.1 ++ b.1, b.2)

/-- Stateful model of a `scanForUnsafePatterns` call (without
`filePath`): the `lastIndex` registers of the patterns' regexes are
explicit state taken before the call and returned after it, which is the
channel through which a global/sticky regex would leak state between
calls. -/
def scanStateful (content : String) (patterns : List UnsafePattern) (st : List Nat) :
    List Detection × List Nat :=
  scanLinesS (jsSplitNewline content) 0 patterns st

/-- A rule whose matcher accepts every line (used as the concrete rule
set of counterexamples). -/
def alwaysMatchPattern : UnsafePattern :=
  { id := "ALWAYS"
    name := "Always"
    pattern := { global := false, testFrom := fun _ _ => (true, 0) }
    severity := "low" }

/-- The single-quote character as a one-character string (for writing
test inputs without apostrophe literals). -/
def squoteStr : String := String.mk [squoteCh]

/-- The "safe code" scenario line of the spec:
`db.users.find({ active: true, role: "user" });`. -/
def safeLine : String := "db.users.find(\x7b active: true, role: \"user\" \x7d);"

/-- The `$where`-injection scenario line of the spec:
`db.users.find({ $where: "this.username === '" + username + "'" });`. -/
def whereInjectionLine : String :=
  "db.users.find(\x7b $where: \"this.username === " ++ squoteStr ++
    "\" + username + \"" ++ squoteStr ++ "\" \x7d);"

/-- The ids of the catalog's injection rules: exactly the rules whose
`id` mentions injection (this includes `FUNCTION_PARAMETER_INJECTION`,
which the claim's sources themselves cite as an injection rule). -/
def injectionIds : List String :=
  ["FUNCTION_PARAMETER_INJECTION", "TEMPLATE_STRING_INJECTION", "ARRAY_FILTER_INJECTION",
   "BULK_OPERATION_INJECTION", "NOSQL_INJECTION_OBJECT", "NOSQL_INJECTION_REGEX",
   "NOSQL_INJECTION_STRING", "PROJECTION_INJECTION", "SORT_INJECTION",
   "OBJECT_SPREAD_INJECTION"]

/-- The rule ids that the "safe code" scenario line must not trigger:
the unconstrained-query rule and every injection rule except
`FUNCTION_PARAMETER_INJECTION` (whose matcher does accept that line). -/
def safeLineExcludedIds : List String :=
  ["UNCONSTRAINED_QUERY", "TEMPLATE_STRING_INJECTION", "ARRAY_FILTER_INJECTION",
   "BULK_OPERATION_INJECTION", "NOSQL_INJECTION_OBJECT", "NOSQL_INJECTION_REGEX",
   "NOSQL_INJECTION_STRING", "PROJECTION_INJECTION", "SORT_INJECTION",
   "OBJECT_SPREAD_INJECTION"]

/-- Every detection emitted for one line records that line's (trimmed)
text and number, and comes from a matching pattern of the rule set. -/
theorem mem_scanLine {d : Detection} {line : String} {n : Nat} {ps : List UnsafePattern}
    (hd : d ∈ scanLine line n ps) :
    d.pattern ∈ ps ∧ d.pattern.testLine line = true ∧ d.lineNumber = n ∧
      d.matchedText = jsTrim line := by
  induction ps with
  | nil => simp [scanLine] at hd
  | cons p ps ih =>
    by_cases h : p.testLine line
    · rw [scanLine, if_pos h] at hd
      rcases List.mem_cons.mp hd with h1 | h2
      · subst h1; exact ⟨List.mem_cons_self .., h, rfl, rfl⟩
      · rcases ih h2 with ⟨a, b, c, e⟩
        exact ⟨List.mem_cons_of_mem _ a, b, c, e⟩
    · rw [scanLine, if_neg h] at hd
      rcases ih hd with ⟨a, b, c, e⟩
      exact ⟨List.mem_cons_of_mem _ a, b, c, e⟩

/-- Conversely, every matching pattern of the rule set contributes a
detection for the line. -/
theorem scanLine_mem_of_test {p : UnsafePattern} {line : String} {n : Nat}
    {ps : List UnsafePattern} (hp : p ∈ ps) (ht : p.testLine line = true) :
    ({ pattern := p, lineNumber := n, matchedText := jsTrim line } : Detection) ∈
      scanLine line n ps := by
  induction ps with
  | nil => cases hp
  | cons q ps ih =>
    rcases List.mem_cons.mp hp with h1 | h2
    · subst h1; rw [scanLine, if_pos ht]; exact List.mem_cons_self ..
    · by_cases h : q.testLine line
      · rw [scanLine, if_pos h]; exact List.mem_cons_of_mem _ (ih h2)
      · rw [scanLine, if_neg h]; exact ih h2

/-- The inner loop emits nothing exactly when no pattern matches. -/
theorem scanLine_eq_nil {line : String} {n : Nat} {ps : List UnsafePattern}
    (h : ∀ p ∈ ps, p.testLine line = false) : scanLine line n ps = [] := by
  induction ps with
  | nil => rfl
  | cons p ps ih =>
    rw [scanLine, if_neg (by simp [h p (List.mem_cons_self ..)])]
    exact ih fun q hq => h q (List.mem_cons_of_mem _ hq)

/-- Every detection emitted by the outer loop comes from scanning some
line of the list, with the 1-based numbering offset by `i`. -/
theorem mem_scanLines {d : Detection} {ls : List String} {i : Nat} {ps : List UnsafePattern}
    (hd : d ∈ scanLines ls i ps) :
    ∃ t, ∃ ht : t < ls.length, d ∈ scanLine (ls.get ⟨t, ht⟩) (i + t + 1) ps := by
  induction ls generalizing i with
  | nil => simp [scanLines] at hd
  | cons l ls ih =>
    rw [scanLines] at hd
    rcases List.mem_append.mp hd with h1 | h2
    · exact ⟨0, Nat.succ_pos _, by simpa using h1⟩
    · rcases ih h2 with ⟨t, ht, hmem⟩
      refine ⟨t + 1, Nat.succ_lt_succ ht, ?_⟩
      simpa [Nat.add_comm, Nat.add_assoc, Nat.add_left_comm] using hmem

/-- Conversely, a detection produced on the `t`-th line is in the outer
loop's output. -/
theorem scanLines_mem_of {d : Detection} {ls : List String} {i t : Nat}
    {ps : List UnsafePattern} (ht : t < ls.length)
    (hmem : d ∈ scanLine (ls.get ⟨t, ht⟩) (i + t + 1) ps) : d ∈ scanLines ls i ps := by
  induction ls generalizing i t with
  | nil => cases ht
  | cons l ls ih =>
    rw [scanLines]
    refine List.mem_append.mpr ?_
    cases t with
    | zero => exact Or.inl (by simpa using hmem)
    | succ t =>
      refine Or.inr (ih (Nat.lt_of_succ_lt_succ ht) ?_)
      simpa [Nat.add_comm, Nat.add_assoc, Nat.add_left_comm] using hmem

/-- The inner loop emits at most one detection per pattern. -/
theorem scanLine_length {line : String} {n : Nat} (ps : List UnsafePattern) :
    (scanLine line n ps).length ≤ ps.length := by
  induction ps with
  | nil => simp [scanLine]
  | cons p ps ih =>
    by_cases h : p.testLine line
    · rw [scanLine, if_pos h]; simpa using Nat.succ_le_succ ih
    · rw [scanLine, if_neg h]; exact Nat.le_succ_of_le ih

/-- The outer loop emits at most one detection per line–pattern pair. -/
theorem scanLines_length {ls : List String} {i : Nat} {ps : List UnsafePattern} :
    (scanLines ls i ps).length ≤ ls.length * ps.length := by
  induction ls generalizing i with
  | nil => simp [scanLines]
  | cons l ls ih =>
    rw [scanLines, List.length_append]
    calc (scanLine l (i + 1) ps).length + (scanLines ls (i + 1) ps).length
        ≤ ps.length + ls.length * ps.length :=
          Nat.add_le_add (scanLine_length ps) ih
      _ = (ls.length + 1) * ps.length := by ring
      _ = (l :: ls).length * ps.length := by simp

/-- Dropping the index annotations of `scanLineIdx` recovers the inner
loop, whatever the starting catalog index. -/
theorem scanLine_eq_idx (line : String) (n : Nat) (ps : List UnsafePattern) :
    ∀ j, scanLine line n ps = (scanLineIdx line n ps j).map (fun x => x.2.2) := by
  induction ps with
  | nil => intro j; rfl
  | cons p ps ih =>
    intro j
    by_cases h : p.testLine line
    · rw [scanLine, if_pos h, scanLineIdx, if_pos h, List.map_cons, ih (j + 1)]
    · rw [scanLine, if_neg h, scanLineIdx, if_neg h, ih (j + 1)]

/-- Every annotated detection of one line carries that line's number and
a catalog index at least the starting index. -/
theorem mem_scanLineIdx_bounds {x : Nat × Nat × Detection} {line : String} {n : Nat}
    {ps : List UnsafePattern} {j : Nat} (hx : x ∈ scanLineIdx line n ps j) :
    x.1 = n ∧ j ≤ x.2.1 := by
  induction ps generalizing j with
  | nil => simp [scanLineIdx] at hx
  | cons p ps ih =>
    by_cases h : p.testLine line
    · rw [scanLineIdx, if_pos h] at hx
      rcases List.mem_cons.mp hx with h1 | h2
      · subst h1; exact ⟨rfl, Nat.le_refl _⟩
      · rcases ih h2 with ⟨a, b⟩
        exact ⟨a, Nat.le_of_succ_le b⟩
    · rw [scanLineIdx, if_neg h] at hx
      rcases ih hx with ⟨a, b⟩
      exact ⟨a, Nat.le_of_succ_le b⟩

/-- Within one line the annotated catalog indices are strictly
increasing: rules are reported in catalog order. -/
theorem scanLineIdx_pairwise (line : String) (n : Nat) (ps : List UnsafePattern) :
    ∀ j, (scanLineIdx line n ps j).Pairwise (fun a b => a.2.1 < b.2.1) := by
  induction ps with
  | nil => intro j; simp [scanLineIdx]
  | cons p ps ih =>
    intro j
    by_cases h : p.testLine line
    · rw [scanLineIdx, if_pos h]
      refine List.pairwise_cons.mpr ⟨fun y hy => ?_, ih (j + 1)⟩
      exact Nat.lt_of_lt_of_le (Nat.lt_succ_self j) (mem_scanLineIdx_bounds hy).2
    · rw [scanLineIdx, if_neg h]; exact ih (j + 1)

/-- A matching rule at catalog position `j` contributes the annotated
detection tagged `off + j` when scanning starts at offset `off`. -/
theorem mem_scanLineIdx_of_test {line : String} {n : Nat} {ps : List UnsafePattern} :
    ∀ (j off : Nat) (hj : j < ps.length),
      (ps.get ⟨j, hj⟩).testLine line = true →
      (n, off + j,
        ({ pattern := ps.get ⟨j, hj⟩, lineNumber := n, matchedText := jsTrim line } :
          Detection)) ∈ scanLineIdx line n ps off := by
  induction ps with
  | nil => intro j off hj; cases hj
  | cons p ps ih =>
    intro j off hj ht
    cases j with
    | zero =>
      have ht' : p.testLine line = true := ht
      rw [scanLineIdx, if_pos ht']
      exact List.mem_cons.mpr (Or.inl (by simp))
    | succ j =>
      have hmem := ih j (off + 1) (Nat.lt_of_succ_lt_succ hj) ht
      have harith : off + 1 + j = off + (j + 1) := by omega
      rw [harith] at hmem
      by_cases h : p.testLine line
      · rw [scanLineIdx, if_pos h]; exact List.mem_cons_of_mem _ hmem
      · rw [scanLineIdx, if_neg h]; exact hmem

/-- Conversely, an annotated detection tagged `k` comes from the rule at
catalog position `k - off`, which matches the line. -/
theorem test_of_mem_scanLineIdx {x : Nat × Nat × Detection} {line : String} {n : Nat}
    {ps : List UnsafePattern} :
    ∀ {off : Nat}, x ∈ scanLineIdx line n ps off →
      ∃ hk : x.2.1 - off < ps.length, off ≤ x.2.1 ∧
        x = (n, x.2.1,
          ({ pattern := ps.get ⟨x.2.1 - off, hk⟩, lineNumber := n,
             matchedText := jsTrim line } : Detection)) ∧
        (ps.get ⟨x.2.1 - off, hk⟩).testLine line = true := by
  induction ps with
  | nil => intro off hx; simp [scanLineIdx] at hx
  | cons p ps ih =>
    intro off hx
    have hcase : x = (n, off,
        ({ pattern := p, lineNumber := n, matchedText := jsTrim line } : Detection)) ∧
          p.testLine line = true ∨ x ∈ scanLineIdx line n ps (off + 1) := by
      by_cases h : p.testLine line
      · rw [scanLineIdx, if_pos h] at hx
        rcases List.mem_cons.mp hx with h1 | h2
        · exact Or.inl ⟨h1, h⟩
        · exact Or.inr h2
      · rw [scanLineIdx, if_neg h] at hx
        exact Or.inr hx
    rcases hcase with ⟨h1, h2⟩ | h2
    · subst h1
      refine ⟨by simp, by simp, by simp, by simpa using h2⟩
    · rcases ih h2 with ⟨hk, hle, heq, ht⟩
      have hoff : off ≤ x.2.1 := Nat.le_of_succ_le hle
      have hsub : x.2.1 - off = (x.2.1 - (off + 1)) + 1 := by omega
      have hbound : x.2.1 - off < (p :: ps).length := by
        rw [List.length_cons, hsub]; exact Nat.succ_lt_succ hk
      refine ⟨hbound, hoff, ?_, ?_⟩
      · simpa [hsub] using heq
      · simpa [hsub] using ht

/-- Dropping the index annotations of `scanLinesIdx` recovers the outer
loop. -/
theorem scanLines_eq_idx (ps : List UnsafePattern) (ls : List String) :
    ∀ i, scanLines ls i ps = (scanLinesIdx ps ls i).map (fun x => x.2.2) := by
  induction ls with
  | nil => intro i; rfl
  | cons l ls ih =>
    intro i
    rw [scanLines, scanLinesIdx, List.map_append, ← scanLine_eq_idx, ← ih]

/-- Annotated line numbers of the outer loop lie in
`(i, i + number of lines]`. -/
theorem mem_scanLinesIdx_bounds {x : Nat × Nat × Detection} {ps : List UnsafePattern}
    {ls : List String} : ∀ {i : Nat}, x ∈ scanLinesIdx ps ls i →
      i + 1 ≤ x.1 ∧ x.1 ≤ i + ls.length := by
  induction ls with
  | nil => intro i hx; simp [scanLinesIdx] at hx
  | cons l ls ih =>
    intro i hx
    rw [scanLinesIdx] at hx
    rcases List.mem_append.mp hx with h1 | h2
    · have := (mem_scanLineIdx_bounds h1).1
      rw [List.length_cons]
      omega
    · have := ih h2
      rw [List.length_cons]
      omega

/-- Membership in the annotated scan, line by line. -/
theorem mem_scanLinesIdx_iff {x : Nat × Nat × Detection} {ps : List UnsafePattern}
    {ls : List String} : ∀ {i : Nat}, x ∈ scanLinesIdx ps ls i ↔
      ∃ t, ∃ ht : t < ls.length, x ∈ scanLineIdx (ls.get ⟨t, ht⟩) (i + t + 1) ps 0 := by
  induction ls with
  | nil => intro i; simp [scanLinesIdx]
  | cons l ls ih =>
    intro i
    rw [scanLinesIdx]
    constructor
    · intro hx
      rcases List.mem_append.mp hx with h1 | h2
      · exact ⟨0, Nat.succ_pos _, by simpa using h1⟩
      · rcases ih.mp h2 with ⟨t, ht, hmem⟩
        refine ⟨t + 1, Nat.succ_lt_succ ht, ?_⟩
        simpa [Nat.add_comm, Nat.add_assoc, Nat.add_left_comm] using hmem
    · rintro ⟨t, ht, hmem⟩
      refine List.mem_append.mpr ?_
      cases t with
      | zero => exact Or.inl (by simpa using hmem)
      | succ t =>
        refine Or.inr (ih.mpr ⟨t, Nat.lt_of_succ_lt_succ ht, ?_⟩)
        simpa [Nat.add_comm, Nat.add_assoc, Nat.add_left_comm] using hmem

/-- The annotated scan is strictly sorted in the lexicographic order
(line number, then catalog index of the rule). -/
theorem scanLinesIdx_pairwise (ps : List UnsafePattern) (ls : List String) :
    ∀ i, (scanLinesIdx ps ls i).Pairwise
      (fun a b => a.1 < b.1 ∨ (a.1 = b.1 ∧ a.2.1 < b.2.1)) := by
  induction ls with
  | nil => intro i; simp [scanLinesIdx]
  | cons l ls ih =>
    intro i
    rw [scanLinesIdx]
    refine List.pairwise_append.mpr ⟨?_, ih (i + 1), ?_⟩
    · refine List.Pairwise.imp_of_mem ?_ (scanLineIdx_pairwise l (i + 1) ps 0)
      intro a b ha hb hlt
      exact Or.inr ⟨(mem_scanLineIdx_bounds ha).1.trans (mem_scanLineIdx_bounds hb).1.symm, hlt⟩
    · intro a ha b hb
      have h1 : a.1 = i + 1 := (mem_scanLineIdx_bounds ha).1
      have h2 : i + 1 + 1 ≤ b.1 := (mem_scanLinesIdx_bounds hb).1
      exact Or.inl (by omega)

/-- A non-global regex ignores and preserves `lastIndex`. -/
theorem testJS_nonglobal {r : JSRegExp} (h : r.global = false) (s : String) (li : Nat) :
    r.testJS s li = ((r.testFrom s 0).1, li) := by
  simp [JSRegExp.testJS, h]

/-- When no pattern of the rule set is global, the stateful inner loop
computes the pure inner loop and returns the `lastIndex` state
unchanged. -/
theorem scanLineS_stateless {line : String} {n : Nat} :
    ∀ (ps : List UnsafePattern) (st : List Nat),
      (∀ p ∈ ps, p.pattern.global = false) → st.length = ps.length →
      scanLineS line n (ps.zip st) = (scanLine line n ps, st) := by
  intro ps
  induction ps with
  | nil =>
    intro st _ hlen
    have : st = [] := List.length_eq_zero.mp hlen
    subst this
    rfl
  | cons p ps ih =>
    intro st hg hlen
    cases st with
    | nil => simp at hlen
    | cons li st =>
      have hglobal : p.pattern.global = false := hg p (List.mem_cons_self ..)
      have hrest := ih st (fun q hq => hg q (List.mem_cons_of_mem _ hq))
        (by simpa using hlen)
      rw [List.zip_cons_cons, scanLineS, hrest, testJS_nonglobal hglobal]
      by_cases h : p.testLine line
      · have h' : ((p.pattern.testFrom line 0).1 = true) := h
        rw [scanLine, if_pos h]
        simp [h']
      · have h' : ((p.pattern.testFrom line 0).1 = false) := by
          simpa [UnsafePattern.testLine] using h
        rw [scanLine, if_neg h]
        simp [h']

/-- When no pattern of the rule set is global, the stateful outer loop
computes the pure outer loop and returns the state unchanged. -/
theorem scanLinesS_stateless {ls : List String} :
    ∀ (i : Nat) (ps : List UnsafePattern) (st : List Nat),
      (∀ p ∈ ps, p.pattern.global = false) → st.length = ps.length →
      scanLinesS ls i ps st = (scanLines ls i ps, st) := by
  induction ls with
  | nil => intro i ps st _ _; rfl
  | cons l ls ih =>
    intro i ps st hg hlen
    rw [scanLinesS, scanLineS_stateless ps st hg hlen, ih (i + 1) ps st hg hlen]
    rfl

/-- The earlier inner loop agrees with the later one. -/
theorem scanLineV1_eq (line : String) (n : Nat) :
    ∀ ps, scanLineV1 line n ps = scanLine line n ps := by
  intro ps
  induction ps with
  | nil => rfl
  | cons p ps ih =>
    by_cases h : p.testLine line
    · rw [scanLineV1, if_pos h, scanLine, if_pos h, ih]
    · rw [scanLineV1, if_neg h, scanLine, if_neg h, ih]

/-- The earlier outer loop agrees with the later one. -/
theorem scanLinesV1_eq : ∀ (ls : List String) (i : Nat) (ps : List UnsafePattern),
    scanLinesV1 ls i ps = scanLines ls i ps := by
  intro ls
  induction ls with
  | nil => intro i ps; rfl
  | cons l ls ih =>
    intro i ps
    rw [scanLinesV1, scanLines, scanLineV1_eq, ih]

/-- C1: for every input text and rule set, the Finding sequence of
`scanForUnsafePatterns` is strictly ordered — it is the projection of an
index-annotated scan whose (line number, catalog index) keys are
strictly lexicographically increasing (line number ascending, catalog
order of the rule as tie-break) and duplicate-free, and a key
`(i + 1, j)` occurs (exactly once) if and only if rule `j` matches line
`i`: every (line, matching rule) pair is emitted exactly once. -/
theorem scan_output_ordered (content : String) (patterns : List UnsafePattern) :
    scanForUnsafePatterns content patterns none =
      (scanIndexed content patterns).map (fun x => x.2.2) ∧
    (scanIndexed content patterns).Pairwise
      (fun a b => a.1 < b.1 ∨ (a.1 = b.1 ∧ a.2.1 < b.2.1)) ∧
    ((scanIndexed content patterns).map (fun x => (x.1, x.2.1))).Nodup ∧
    ∀ (i j : Nat) (hi : i < (jsSplitNewline content).length) (hj : j < patterns.length),
      ((i + 1, j,
        ({ pattern := patterns.get ⟨j, hj⟩, lineNumber := i + 1,
           matchedText := jsTrim ((jsSplitNewline content).get ⟨i, hi⟩) } : Detection)) ∈
          scanIndexed content patterns) ↔
        (patterns.get ⟨j, hj⟩).testLine ((jsSplitNewline content).get ⟨i, hi⟩) = true := by
  refine ⟨?_, ?_, ?_, ?_⟩
  · exact scanLines_eq_idx patterns (jsSplitNewline content) 0
  · exact scanLinesIdx_pairwise patterns (jsSplitNewline content) 0
  · have pw := scanLinesIdx_pairwise patterns (jsSplitNewline content) 0
    refine List.Pairwise.map _ ?_ pw
    intro a b hab heq
    simp only [Prod.ext_iff] at heq
    obtain ⟨h1, h2⟩ := heq
    rcases hab with h | ⟨h3, h4⟩ <;> omega
  · intro i j hi hj
    constructor
    · intro hmem
      rcases mem_scanLinesIdx_iff.mp hmem with ⟨t, ht, hmem'⟩
      have hfst : i + 1 = 0 + t + 1 := (mem_scanLineIdx_bounds hmem').1
      have hti : t = i := by omega
      subst hti
      rcases test_of_mem_scanLineIdx hmem' with ⟨hk, _, _, htest⟩
      exact htest
    · intro htest
      apply mem_scanLinesIdx_iff.mpr
      refine ⟨i, hi, ?_⟩
      have h := @mem_scanLineIdx_of_test ((jsSplitNewline content).get ⟨i, hi⟩) (i + 1)
        patterns j 0 hj htest
      simpa using h

/-- Witness for C1 at a concrete input: scanning the one-line text `x`
with the always-matching rule set, the pair (line 1, rule 0) is in the
annotated output. -/
theorem scan_output_ordered_witness :
    (1, 0, ({ pattern := alwaysMatchPattern, lineNumber := 1, matchedText := "x" } :
      Detection)) ∈ scanIndexed "x" [alwaysMatchPattern] := by
  have h := ((scan_output_ordered "x" [alwaysMatchPattern]).2.2.2 0 0 (by decide)
    (by decide)).mpr rfl
  simpa using h

/-- C2 counterexample: the code's self-exclusion convention is substring
containment, not an ends-with check.  The source id
`unsafe-queries.ts.bak` ends with neither `unsafe-queries.ts` nor
`unsafe-queries.js`, so by the claim the scan should behave as the
normal line scan — but the code returns the empty sequence while the
normal scan of the same text returns one Finding. -/
theorem scan_self_exclusion_cex :
    endsWithStr "unsafe-queries.ts.bak" "unsafe-queries.ts" = false ∧
    endsWithStr "unsafe-queries.ts.bak" "unsafe-queries.js" = false ∧
    scanForUnsafePatterns "x" [alwaysMatchPattern] (some "unsafe-queries.ts.bak") = [] ∧
    scanForUnsafePatterns "x" [alwaysMatchPattern] none =
      [{ pattern := alwaysMatchPattern, lineNumber := 1, matchedText := "x" }] := by
  refine ⟨by decide, by decide, ?_, ?_⟩
  · rfl
  · rfl

/-- C2 amended: the self-exclusion convention is substring containment
(JavaScript `String.prototype.includes`): if the provided `filePath`
contains `unsafe-queries.ts` or `unsafe-queries.js` as a substring, the
scan returns the empty sequence regardless of the text; otherwise it
behaves exactly as the scan without a `filePath`. -/
theorem scan_self_exclusion_amended (content : String) (patterns : List UnsafePattern)
    (fp : String) :
    ((jsIncludes fp "unsafe-queries.ts" = true ∨ jsIncludes fp "unsafe-queries.js" = true) →
      scanForUnsafePatterns content patterns (some fp) = []) ∧
    (jsIncludes fp "unsafe-queries.ts" = false →
      jsIncludes fp "unsafe-queries.js" = false →
      scanForUnsafePatterns content patterns (some fp) =
        scanForUnsafePatterns content patterns none) := by
  constructor
  · intro h
    have hc : (jsIncludes fp "unsafe-queries.ts" || jsIncludes fp "unsafe-queries.js")
        = true := by
      rcases h with h | h <;> simp [h]
    simp [scanForUnsafePatterns, hc]
  · intro h1 h2
    simp [scanForUnsafePatterns, h1, h2]

/-- Witness for the amended C2 at a concrete input: `app.ts` contains
neither catalog-module name, so the scan with that `filePath` equals the
scan without one. -/
theorem scan_self_exclusion_amended_witness :
    scanForUnsafePatterns "x" [alwaysMatchPattern] (some "app.ts") =
      scanForUnsafePatterns "x" [alwaysMatchPattern] none :=
  (scan_self_exclusion_amended "x" [alwaysMatchPattern] "app.ts").2 (by decide) (by decide)

/-- C3: every Finding of a scan has a `lineNumber` that is a valid
1-based index into the newline-split line sequence of the text, and its
`matchedText` is that line with leading and trailing whitespace
removed. -/
theorem scan_line_fidelity (content : String) (patterns : List UnsafePattern)
    (filePath : Option String) (d : Detection)
    (hd : d ∈ scanForUnsafePatterns content patterns filePath) :
    1 ≤ d.lineNumber ∧ d.lineNumber ≤ (jsSplitNewline content).length ∧
    ∃ h : d.lineNumber - 1 < (jsSplitNewline content).length,
      d.matchedText = jsTrim ((jsSplitNewline content).get ⟨d.lineNumber - 1, h⟩) := by
  rw [scanForUnsafePatterns] at hd
  split at hd
  · cases hd
  · rcases mem_scanLines hd with ⟨t, ht, hmem⟩
    rcases mem_scanLine hmem with ⟨_, _, hln, hmt⟩
    have hln' : d.lineNumber = t + 1 := by omega
    have hidx : d.lineNumber - 1 = t := by omega
    refine ⟨by omega, by omega, by omega, ?_⟩
    simp only [hidx]
    exact hmt

/-- Witness for C3 at a concrete input: the single Finding of scanning
`x` with the always-matching rule has line number 1 within bounds and
carries the trimmed line. -/
theorem scan_line_fidelity_witness :
    1 ≤ (({ pattern := alwaysMatchPattern, lineNumber := 1, matchedText := "x" } :
        Detection)).lineNumber ∧
    (({ pattern := alwaysMatchPattern, lineNumber := 1, matchedText := "x" } :
        Detection)).lineNumber ≤ (jsSplitNewline "x").length ∧
    ∃ h : (({ pattern := alwaysMatchPattern, lineNumber := 1, matchedText := "x" } :
        Detection)).lineNumber - 1 < (jsSplitNewline "x").length,
      (({ pattern := alwaysMatchPattern, lineNumber := 1, matchedText := "x" } :
        Detection)).matchedText =
        jsTrim ((jsSplitNewline "x").get
          ⟨(({ pattern := alwaysMatchPattern, lineNumber := 1, matchedText := "x" } :
            Detection)).lineNumber - 1, h⟩) :=
  scan_line_fidelity "x" [alwaysMatchPattern] none
    { pattern := alwaysMatchPattern, lineNumber := 1, matchedText := "x" }
    (List.mem_singleton_self _)

/-- C4: determinism. No catalog matcher carries a stateful
global/sticky regex flag, and for every rule set without such flags the
stateful scan (which threads the `lastIndex` registers of the rules'
regexes — the only state a scan call could read or leave behind)
returns exactly the pure scan's output and leaves the state unchanged;
hence two calls with the same arguments return identical Finding
sequences, whatever earlier calls did. -/
theorem scan_deterministic :
    (∀ p ∈ unsafePatterns, p.pattern.global = false) ∧
    ∀ (content : String) (patterns : List UnsafePattern) (st : List Nat),
      (∀ p ∈ patterns, p.pattern.global = false) → st.length = patterns.length →
      scanStateful content patterns st =
        (scanForUnsafePatterns content patterns none, st) := by
  refine ⟨by decide, ?_⟩
  intro content patterns st hg hlen
  rw [scanStateful, scanLinesS_stateless 0 patterns st hg hlen]
  rfl

/-- Witness for C4 at a concrete input: a stateful scan of `x` with the
always-matching (non-global) rule from initial `lastIndex` state `[0]`
equals the pure scan and returns the state unchanged. -/
theorem scan_deterministic_witness :
    scanStateful "x" [alwaysMatchPattern] [0] =
      (scanForUnsafePatterns "x" [alwaysMatchPattern] none, [0]) :=
  scan_deterministic.2 "x" [alwaysMatchPattern] [0] (by decide) (by decide)

/-- C5: totality of scan — for every text (arbitrary content, including
non-program text), every rule set and every optional source id, the
scan has a well-defined output sequence, of length at most
lines × rules; the embedding is a total function with no error
outcome. -/
theorem scan_total (content : String) (patterns : List UnsafePattern)
    (filePath : Option String) :
    ∃ ds : List Detection, scanForUnsafePatterns content patterns filePath = ds ∧
      ds.length ≤ (jsSplitNewline content).length * patterns.length := by
  refine ⟨scanForUnsafePatterns content patterns filePath, rfl, ?_⟩
  rw [scanForUnsafePatterns]
  split
  · simp
  · exact scanLines_length

/-- C7 counterexample: splitting the empty text at newlines yields one
empty line, which is scanned; a rule set whose matcher accepts the
empty line therefore produces a Finding, so the scan of the empty text
is not empty for every rule set. -/
theorem scan_empty_text_cex :
    scanForUnsafePatterns "" [alwaysMatchPattern] none =
      [{ pattern := alwaysMatchPattern, lineNumber := 1, matchedText := "" }] ∧
    scanForUnsafePatterns "" [alwaysMatchPattern] none ≠ [] := by
  constructor
  · rfl
  · intro h
    exact List.cons_ne_nil _ _ (Eq.trans (Eq.symm (by rfl)) h)

/-- C7 amended: the empty text is scanned as one empty line, so its
scan is empty exactly for rule sets none of whose matchers accepts the
empty line — which holds for the catalog: scanning the empty text with
the catalog yields the empty Finding sequence. -/
theorem scan_empty_text_amended :
    (∀ patterns : List UnsafePattern, (∀ p ∈ patterns, p.testLine "" = false) →
      scanForUnsafePatterns "" patterns none = []) ∧
    scanForUnsafePatterns "" unsafePatterns none = [] := by
  have hgen : ∀ patterns : List UnsafePattern, (∀ p ∈ patterns, p.testLine "" = false) →
      scanForUnsafePatterns "" patterns none = [] := by
    intro patterns h
    show scanLine "" 1 patterns ++ [] = []
    rw [List.append_nil]
    exact scanLine_eq_nil h
  exact ⟨hgen, hgen unsafePatterns (by decide)⟩

/-- Witness for the amended C7 at a concrete input: the empty rule set
trivially has no matcher accepting the empty line. -/
theorem scan_empty_text_amended_witness :
    scanForUnsafePatterns "" [] none = [] :=
  scan_empty_text_amended.1 [] (by simp)

/-- C6 counterexample: the "safe code" line
`db.users.find({ active: true, role: "user" });` does yield a Finding
from an injection rule — `FUNCTION_PARAMETER_INJECTION` (cited by the
claim's own sources as an injection rule) matches `find({ active: true`
with parameter `active` and value `true`. -/
theorem scan_safe_line_cex :
    "FUNCTION_PARAMETER_INJECTION" ∈ injectionIds ∧
    ∃ d ∈ scanForUnsafePatterns safeLine unsafePatterns none,
      d.pattern.id = "FUNCTION_PARAMETER_INJECTION" := by
  refine ⟨by decide, ?_⟩
  refine ⟨{ pattern := FUNCTION_PARAMETER_INJECTION, lineNumber := 1, matchedText := jsTrim safeLine }, ?_, rfl⟩
  show _ ∈ scanLine safeLine 1 unsafePatterns ++ []
  rw [List.append_nil]
  exact scanLine_mem_of_test (List.mem_cons_self ..) (by decide)

/-- C6 amended: the "safe code" line yields no Finding from the
unconstrained-query rule and none from any injection rule other than
`FUNCTION_PARAMETER_INJECTION` — which does produce a Finding for this
line. -/
theorem scan_safe_line_amended :
    (∀ d ∈ scanForUnsafePatterns safeLine unsafePatterns none,
      d.pattern.id ≠ "UNCONSTRAINED_QUERY" ∧
      (d.pattern.id ∈ injectionIds → d.pattern.id = "FUNCTION_PARAMETER_INJECTION")) ∧
    ∃ d ∈ scanForUnsafePatterns safeLine unsafePatterns none,
      d.pattern.id = "FUNCTION_PARAMETER_INJECTION" := by
  have key : ∀ p ∈ unsafePatterns, p.id ∈ safeLineExcludedIds →
      p.testLine safeLine = false := by decide
  constructor
  · intro d hd
    have hd' : d ∈ scanLine safeLine 1 unsafePatterns := by
      have heq : scanForUnsafePatterns safeLine unsafePatterns none =
          scanLine safeLine 1 unsafePatterns ++ [] := rfl
      rw [heq, List.append_nil] at hd
      exact hd
    rcases mem_scanLine hd' with ⟨hmem, htest, _, _⟩
    constructor
    · intro hid
      have hl : d.pattern.id ∈ safeLineExcludedIds := by rw [hid]; decide
      have hf := key d.pattern hmem hl
      rw [hf] at htest
      exact absurd htest Bool.false_ne_true
    · intro hinj
      by_contra hne
      have hstep : ∀ s ∈ injectionIds, s ≠ "FUNCTION_PARAMETER_INJECTION" →
          s ∈ safeLineExcludedIds := by decide
      have hl : d.pattern.id ∈ safeLineExcludedIds := hstep _ hinj hne
      have hf := key d.pattern hmem hl
      rw [hf] at htest
      exact absurd htest Bool.false_ne_true
  · refine ⟨{ pattern := FUNCTION_PARAMETER_INJECTION, lineNumber := 1, matchedText := jsTrim safeLine }, ?_, rfl⟩
    show _ ∈ scanLine safeLine 1 unsafePatterns ++ []
    rw [List.append_nil]
    exact scanLine_mem_of_test (List.mem_cons_self ..) (by decide)

/-- Witness for the amended C6 at a concrete Finding: the
`FUNCTION_PARAMETER_INJECTION` Finding of the safe line is not an
unconstrained-query Finding. -/
theorem scan_safe_line_amended_witness :
    ({ pattern := FUNCTION_PARAMETER_INJECTION, lineNumber := 1, matchedText := jsTrim safeLine } : Detection).pattern.id ≠ "UNCONSTRAINED_QUERY" :=
  (scan_safe_line_amended.1
    { pattern := FUNCTION_PARAMETER_INJECTION, lineNumber := 1, matchedText := jsTrim safeLine }
    (by
      show _ ∈ scanLine safeLine 1 unsafePatterns ++ []
      rw [List.append_nil]
      exact scanLine_mem_of_test (List.mem_cons_self ..) (by decide))).1

/-- C8: scanning the line
`db.users.find({ $where: "this.username === '" + username + "'" });`
with the catalog yields a Finding whose rule id is
`NOSQL_INJECTION_OBJECT` (the `$where`/`$expr` injection rule) with
severity `high`. -/
theorem scan_where_injection :
    ∃ d ∈ scanForUnsafePatterns whereInjectionLine unsafePatterns none,
      d.pattern.id = "NOSQL_INJECTION_OBJECT" ∧ d.pattern.severity = "high" := by
  refine ⟨{ pattern := NOSQL_INJECTION_OBJECT, lineNumber := 1, matchedText := jsTrim whereInjectionLine }, ?_, rfl, rfl⟩
  show _ ∈ scanLine whereInjectionLine 1 unsafePatterns ++ []
  rw [List.append_nil]
  refine scanLine_mem_of_test ?_ (by decide)
  simp [unsafePatterns]

/-- C9: the severity-to-color mapping is a pure total function: each of
the three severity levels gets its own fixed color, the three colors
are pairwise distinct, and every other string gets the one fixed
fallback color (never a failure). -/
theorem severity_color_total :
    getSeverityColor "high" = "#FF4D4F" ∧
    getSeverityColor "medium" = "#FAAD14" ∧
    getSeverityColor "low" = "#52C41A" ∧
    (getSeverityColor "high" ≠ getSeverityColor "medium" ∧
     getSeverityColor "high" ≠ getSeverityColor "low" ∧
     getSeverityColor "medium" ≠ getSeverityColor "low") ∧
    ∀ s : String, s ≠ "high" → s ≠ "medium" → s ≠ "low" →
      getSeverityColor s = "#1890FF" := by
  refine ⟨by decide, by decide, by decide, ⟨by decide, by decide, by decide⟩, ?_⟩
  intro s h1 h2 h3
  rw [getSeverityColor, if_neg h1, if_neg h2, if_neg h3]

/-- Witness for C9 at a concrete unrecognized severity. -/
theorem severity_color_total_witness : getSeverityColor "critical" = "#1890FF" :=
  severity_color_total.2.2.2.2 "critical" (by decide) (by decide) (by decide)

/-- C10: the two source versions of `scanForUnsafePatterns` are
equivalent whenever self-exclusion does not apply: the later version
with `filePath` omitted, or with any `filePath` that contains neither
`unsafe-queries.ts` nor `unsafe-queries.js` as a substring, returns
exactly the Detection sequence of the earlier version. -/
theorem scan_versions_equiv (content : String) (patterns : List UnsafePattern) :
    scanForUnsafePatterns content patterns none =
      scanForUnsafePatternsV1 content patterns ∧
    ∀ fp : String, jsIncludes fp "unsafe-queries.ts" = false →
      jsIncludes fp "unsafe-queries.js" = false →
      scanForUnsafePatterns content patterns (some fp) =
        scanForUnsafePatternsV1 content patterns := by
  have hbase : scanForUnsafePatterns content patterns none =
      scanForUnsafePatternsV1 content patterns := by
    show scanLines (jsSplitNewline content) 0 patterns = _
    rw [scanForUnsafePatternsV1, scanLinesV1_eq]
  refine ⟨hbase, ?_⟩
  intro fp h1 h2
  rw [← hbase]
  simp [scanForUnsafePatterns, h1, h2]

/-- Witness for C10 at a concrete input: `app.ts` contains neither
catalog-module name. -/
theorem scan_versions_equiv_witness :
    scanForUnsafePatterns "x" [alwaysMatchPattern] (some "app.ts") =
      scanForUnsafePatternsV1 "x" [alwaysMatchPattern] :=
  (scan_versions_equiv "x" [alwaysMatchPattern]).2 "app.ts" (by decide) (by decide)
